import Mathlib

/-!
Verification development for the gdrive MCP server (Go).

Shallow embedding of the parts of the code relevant to the OAuth2
authorization server (internal/mcp/oauth2.go), the MCP tool handlers
(internal/mcp/tools.go) and the Drive adapter
(internal/drive/service.go, internal/drive/activity.go).

Machine integers are modelled as Nat/Int with explicit reduction
modulo 2^32 where the Go code relies on 32-bit wraparound (SHA-256).
Go maps guarded by the store mutex are modelled as association lists;
each handler body that runs under the exclusive lock is one atomic
Lean function, so any interleaving of concurrent handler invocations
is a sequential composition of these atomic functions.
-/

namespace GDrive

/-! ### Go string helpers (strings.HasPrefix / TrimPrefix / Contains) -/

/-- Model of Go strings.HasPrefix on character lists. -/
def listStartsWith : List Char → List Char → Bool
  | _, [] => true
  | [], _ :: _ => false
  | c :: cs, p :: ps => c = p && listStartsWith cs ps

/-- Model of Go strings.HasPrefix. -/
def goStartsWith (s pre : String) : Bool :=
  listStartsWith s.data pre.data

/-- Model of Go strings.TrimPrefix: drops the prefix when present,
returns the string unchanged otherwise. -/
def goTrimPre (s pre : String) : String :=
  if goStartsWith s pre then String.mk (s.data.drop pre.data.length) else s

/-- Contiguous-substring test on character lists. -/
def listContains : List Char → List Char → Bool
  | [], needle => needle.isEmpty
  | c :: cs, needle => listStartsWith (c :: cs) needle || listContains cs needle

/-- Model of Go strings.Contains. -/
def goContains (s sub : String) : Bool :=
  listContains s.data sub.data

/-! ### SHA-256 over byte lists (Go crypto/sha256) -/

def mask32 : Nat := 4294967295

def add32 (a b : Nat) : Nat := (a + b) % 4294967296

def rotr32 (n x : Nat) : Nat :=
  Nat.lor (Nat.shiftRight x n) (Nat.land (Nat.shiftLeft x (32 - n)) mask32)

def shr32 (n x : Nat) : Nat := Nat.shiftRight x n

def not32 (x : Nat) : Nat := Nat.xor x mask32

def smallSigma0 (x : Nat) : Nat :=
  Nat.xor (Nat.xor (rotr32 7 x) (rotr32 18 x)) (shr32 3 x)

def smallSigma1 (x : Nat) : Nat :=
  Nat.xor (Nat.xor (rotr32 17 x) (rotr32 19 x)) (shr32 10 x)

def bigSigma0 (x : Nat) : Nat :=
  Nat.xor (Nat.xor (rotr32 2 x) (rotr32 13 x)) (rotr32 22 x)

def bigSigma1 (x : Nat) : Nat :=
  Nat.xor (Nat.xor (rotr32 6 x) (rotr32 11 x)) (rotr32 25 x)

def chFn (e f g : Nat) : Nat :=
  Nat.xor (Nat.land e f) (Nat.land (not32 e) g)

def majFn (a b c : Nat) : Nat :=
  Nat.xor (Nat.xor (Nat.land a b) (Nat.land a c)) (Nat.land b c)

def sha256K : List Nat :=
  [1116352408, 1899447441, 3049323471, 3921009573, 961987163, 1508970993,
   2453635748, 2870763221, 3624381080, 310598401, 607225278, 1426881987,
   1925078388, 2162078206, 2614888103, 3248222580, 3835390401, 4022224774,
   264347078, 604807628, 770255983, 1249150122, 1555081692, 1996064986,
   2554220882, 2821834349, 2952996808, 3210313671, 3336571891, 3584528711,
   113926993, 338241895, 666307205, 773529912, 1294757372, 1396182291,
   1695183700, 1986661051, 2177026350, 2456956037, 2730485921, 2820302411,
   3259730800, 3345764771, 3516065817, 3600352804, 4094571909, 275423344,
   430227734, 506948616, 659060556, 883997877, 958139571, 1322822218,
   1537002063, 1747873779, 1955562222, 2024104815, 2227730452, 2361852424,
   2428436474, 2756734187, 3204031479, 3329325298]

def sha256H0 : List Nat :=
  [1779033703, 3144134277, 1013904242, 2773480762, 1359893119, 2600822924,
   528734635, 1541459225]

/-- Big-endian byte expansion of a number, fixed width. -/
def beBytes : Nat → Nat → List Nat
  | 0, _ => []
  | w + 1, n => (Nat.shiftRight n (8 * w)) % 256 :: beBytes w n

/-- SHA-256 padding of a byte message. -/
def sha256Pad (msg : List Nat) : List Nat :=
  let len := msg.length
  let padLen := (64 - ((len + 9) % 64)) % 64
  msg ++ 128 :: List.replicate padLen 0 ++ beBytes 8 (8 * len)

/-- Group bytes (big-endian, length divisible by 4) into 32-bit words. -/
def bytesToWords : List Nat → List Nat
  | b0 :: b1 :: b2 :: b3 :: rest =>
      (((b0 * 256 + b1) * 256 + b2) * 256 + b3) :: bytesToWords rest
  | _ => []

/-- Split a word list into blocks of 16 words (the padded input is
always a multiple of 16 words). -/
def toBlocks : List Nat → List (List Nat)
  | w0 :: w1 :: w2 :: w3 :: w4 :: w5 :: w6 :: w7 ::
    w8 :: w9 :: w10 :: w11 :: w12 :: w13 :: w14 :: w15 :: rest =>
      [w0, w1, w2, w3, w4, w5, w6, w7, w8, w9, w10, w11, w12, w13, w14, w15] ::
        toBlocks rest
  | _ => []

/-- Message-schedule extension; `acc` holds words most-recent-first. -/
def extendSchedule : Nat → List Nat → List Nat
  | 0, acc => acc.reverse
  | n + 1, acc =>
      let w2 := acc.getD 1 0
      let w7 := acc.getD 6 0
      let w15 := acc.getD 14 0
      let w16 := acc.getD 15 0
      let next := (smallSigma1 w2 + w7 + smallSigma0 w15 + w16) % 4294967296
      extendSchedule n (next :: acc)

def schedule (block : List Nat) : List Nat :=
  extendSchedule 48 block.reverse

/-- One compression round; the state is (a,b,c,d,e,f,g,h). -/
def roundFn (st : Nat × Nat × Nat × Nat × Nat × Nat × Nat × Nat) (kw : Nat × Nat) :
    Nat × Nat × Nat × Nat × Nat × Nat × Nat × Nat :=
  let (a, b, c, d, e, f, g, h) := st
  let (k, w) := kw
  let t1 := (h + bigSigma1 e + chFn e f g + k + w) % 4294967296
  let t2 := (bigSigma0 a + majFn a b c) % 4294967296
  (add32 t1 t2, a, b, c, add32 d t1, e, f, g)

def compress (hs : List Nat) (block : List Nat) : List Nat :=
  let ws := schedule block
  let a0 := hs.getD 0 0
  let b0 := hs.getD 1 0
  let c0 := hs.getD 2 0
  let d0 := hs.getD 3 0
  let e0 := hs.getD 4 0
  let f0 := hs.getD 5 0
  let g0 := hs.getD 6 0
  let h0 := hs.getD 7 0
  let st := (sha256K.zip ws).foldl roundFn (a0, b0, c0, d0, e0, f0, g0, h0)
  let (a, b, c, d, e, f, g, h) := st
  [add32 a0 a, add32 b0 b, add32 c0 c, add32 d0 d,
   add32 e0 e, add32 f0 f, add32 g0 g, add32 h0 h]

/-- SHA-256 digest (32 bytes) of a byte message. -/
def sha256 (msg : List Nat) : List Nat :=
  let blocks := toBlocks (bytesToWords (sha256Pad msg))
  (blocks.foldl compress sha256H0).flatMap (beBytes 4)

/-! ### Unpadded base64url (Go base64.RawURLEncoding) -/

def b64Alphabet : String :=
  "ABCDEFGHIJKLMNOPQRSTUVWXYZabcdefghijklmnopqrstuvwxyz0123456789-_"

def b64Char (n : Nat) : Char := b64Alphabet.data.getD n 'A'

def base64UrlEncodeBytes : List Nat → List Char
  | b0 :: b1 :: b2 :: rest =>
      let n := (b0 * 256 + b1) * 256 + b2
      b64Char (n / 262144) :: b64Char (n / 4096 % 64) :: b64Char (n / 64 % 64) ::
        b64Char (n % 64) :: base64UrlEncodeBytes rest
  | [b0, b1] =>
      let n := b0 * 1024 + b1 * 4
      [b64Char (n / 4096), b64Char (n / 64 % 64), b64Char (n % 64)]
  | [b0] =>
      let n := b0 * 16
      [b64Char (n / 64), b64Char (n % 64)]
  | [] => []

def base64UrlEncode (bs : List Nat) : String :=
  String.mk (base64UrlEncodeBytes bs)

/-- UTF-8 bytes of one code point. -/
def utf8Bytes (c : Nat) : List Nat :=
  if c < 128 then [c]
  else if c < 2048 then [192 + c / 64, 128 + c % 64]
  else if c < 65536 then [224 + c / 4096, 128 + c / 64 % 64, 128 + c % 64]
  else [240 + c / 262144, 128 + c / 4096 % 64, 128 + c / 64 % 64, 128 + c % 64]

/-- UTF-8 byte encoding of a string, as Go sees a byte-slice conversion. -/
def strBytes (s : String) : List Nat :=
  s.data.flatMap (fun c => utf8Bytes c.toNat)

/-- Model of validatePKCE (internal/mcp/oauth2.go): S256 only, compares the
unpadded base64url encoding of SHA256(verifier) with the challenge. -/
def validatePKCE (verifier challenge method : String) : Bool :=
  if method ≠ "S256" then false
  else base64UrlEncode (sha256 (strBytes verifier)) == challenge

/-! ### Association-list stores (the mutex-guarded Go maps) -/

/-- Lookup in an association list keyed by strings. -/
def alookup {α : Type} : List (String × α) → String → Option α
  | [], _ => none
  | (k, v) :: rest, key => if k = key then some v else alookup rest key

/-- Deletion of a key from an association list. -/
def aerase {α : Type} : List (String × α) → String → List (String × α)
  | [], _ => []
  | p :: rest, key => if p.1 = key then aerase rest key else p :: aerase rest key

/-! ### OAuth2 server state and handlers (internal/mcp/oauth2.go) -/

/-- TTL of authorization states and codes, in seconds (10 minutes). -/
def ttlSeconds : Nat := 600

structure AuthState where
  clientId : String
  redirectUri : String
  codeChallenge : String
  codeMethod : String
  clientState : String
  createdAt : Nat
  deriving DecidableEq

structure AuthCode where
  clientId : String
  redirectUri : String
  codeChallenge : String
  codeMethod : String
  accessToken : String
  refreshToken : String
  createdAt : Nat
  deriving DecidableEq

inductive CbOut where
  | missingParams
  | invalidExpired
  | proceed (st : AuthState)
  deriving DecidableEq

structure CbResult where
  store : List (String × AuthState)
  observed : Bool
  out : CbOut
  deriving DecidableEq

/-- Model of the state-consuming part of HandleCallback
(internal/mcp/oauth2.go, lines 235-260): the lookup and delete of the
internal state token happen in one critical section under the store
lock, then the TTL is checked on the consumed entry.  `observed` records
whether the invocation saw the entry present. -/
def handleCallbackState (states : List (String × AuthState)) (now : Nat)
    (tok : String) : CbResult :=
  if tok = "" then ⟨states, false, .missingParams⟩
  else
    let found := alookup states tok
    let store1 := if found.isSome then aerase states tok else states
    match found with
    | none => ⟨store1, false, .invalidExpired⟩
    | some st =>
        if now - st.createdAt > ttlSeconds then ⟨store1, true, .invalidExpired⟩
        else ⟨store1, true, .proceed st⟩

inductive GrantOut where
  | invalidRequest (desc : String)
  | invalidGrant (desc : String)
  | granted (accessToken refreshToken : String)
  deriving DecidableEq

structure GrantResult where
  store : List (String × AuthCode)
  out : GrantOut
  deriving DecidableEq

def isGrantSuccess : GrantOut → Bool
  | .granted _ _ => true
  | _ => false

/-- Model of handleAuthorizationCodeGrant (internal/mcp/oauth2.go,
lines 343-404): the code entry is looked up and deleted in one critical
section, then the TTL and PKCE checks run on the consumed entry. -/
def handleAuthorizationCodeGrant (codes : List (String × AuthCode)) (now : Nat)
    (code verifier : String) : GrantResult :=
  if code = "" then ⟨codes, .invalidRequest "Missing code"⟩
  else
    let found := alookup codes code
    let store1 := if found.isSome then aerase codes code else codes
    match found with
    | none => ⟨store1, .invalidGrant "Invalid or expired authorization code"⟩
    | some sc =>
        if now - sc.createdAt > ttlSeconds then
          ⟨store1, .invalidGrant "Invalid or expired authorization code"⟩
        else if sc.codeChallenge ≠ "" then
          if verifier = "" then ⟨store1, .invalidGrant "Missing code_verifier"⟩
          else if !validatePKCE verifier sc.codeChallenge sc.codeMethod then
            ⟨store1, .invalidGrant "Invalid code_verifier"⟩
          else ⟨store1, .granted sc.accessToken sc.refreshToken⟩
        else ⟨store1, .granted sc.accessToken sc.refreshToken⟩

/-! ### Credential parsing (parseCredentials, internal/mcp/oauth2.go) -/

structure OAuthCredentials where
  clientId : String
  clientSecret : String
  deriving DecidableEq

/-- JSON values, restricted to what the credential parser inspects. -/
inductive Jval where
  | str (s : String)
  | obj (fields : List (String × Jval))
  | jnull
  | other
  deriving Inhabited

/-- Last-wins field lookup, as Go encoding/json resolves duplicate keys. -/
def lookupLast : List (String × Jval) → String → Option Jval
  | [], _ => none
  | (k, v) :: rest, key =>
      match lookupLast rest key with
      | some r => some r
      | none => if k = key then some v else none

/-- Decoding a JSON value into a Go string struct field: absent and null
give the zero value, a string gives itself, any other type is an
unmarshalling error. -/
def jStrField (fs : List (String × Jval)) (k : String) : Option String :=
  match lookupLast fs k with
  | none => some ""
  | some (.str s) => some s
  | some .jnull => some ""
  | some _ => none

/-- Decoding a JSON value into a struct of two string fields named
client_id and client_secret, as Go encoding/json does. -/
def decodePair : Jval → Option (String × String)
  | .obj fs =>
      match jStrField fs "client_id", jStrField fs "client_secret" with
      | some a, some b => some (a, b)
      | _, _ => none
  | .jnull => some ("", "")
  | _ => none

structure WrapperCreds where
  webId : String
  webSecret : String
  instId : String
  instSecret : String

/-- Decoding a JSON value into the wrapper struct with web and installed
sub-structs, as the first json.Unmarshal in parseCredentials does. -/
def decodeWrapper : Jval → Option WrapperCreds
  | .obj fs =>
      let sub := fun k =>
        match lookupLast fs k with
        | none => some ("", "")
        | some v => decodePair v
      match sub "web", sub "installed" with
      | some w, some i => some ⟨w.1, w.2, i.1, i.2⟩
      | _, _ => none
  | .jnull => some ⟨"", "", "", ""⟩
  | _ => none

inductive CredErr where
  | parseErr
  | missingFields
  deriving DecidableEq

/-- The flat-format fallback of parseCredentials: unmarshal into
OAuthCredentials, then reject empty client_id or client_secret. -/
def flatDecode (j : Jval) : Except CredErr OAuthCredentials :=
  match decodePair j with
  | none => .error .parseErr
  | some (id, sec) =>
      if id = "" ∨ sec = "" then .error .missingFields else .ok ⟨id, sec⟩

/-- Model of parseCredentials (internal/mcp/oauth2.go, lines 534-570):
try the web and installed wrapper shapes (selected on a non-empty
client_id), then fall back to the flat shape. -/
def parseCredentialsJ (j : Jval) : Except CredErr OAuthCredentials :=
  match decodeWrapper j with
  | some w =>
      if w.webId ≠ "" then .ok ⟨w.webId, w.webSecret⟩
      else if w.instId ≠ "" then .ok ⟨w.instId, w.instSecret⟩
      else flatDecode j
  | none => flatDecode j

/-- The web credential shape with the two fields present. -/
def webShape (id sec : String) : Jval :=
  .obj [("web", .obj [("client_id", .str id), ("client_secret", .str sec)])]

/-- The installed credential shape with the two fields present. -/
def installedShape (id sec : String) : Jval :=
  .obj [("installed", .obj [("client_id", .str id), ("client_secret", .str sec)])]

/-- The flat credential shape with the two fields present. -/
def flatShape (id sec : String) : Jval :=
  .obj [("client_id", .str id), ("client_secret", .str sec)]

/-! ### Bearer auth middleware (Server.authMiddleware and
OAuth2Server.ValidateAccessToken, internal/mcp/oauth2.go) -/

/-- Model of ValidateAccessToken: any non-empty bearer yields the shared
OAuth config paired with the presented token; no upstream call is made. -/
def validateAccessToken (creds : OAuthCredentials) (accessToken : String) :
    Option (OAuthCredentials × String) :=
  if accessToken = "" then none else some (creds, accessToken)

inductive MWOut where
  | unauthorized (header : String)
  | passThrough (cfg : OAuthCredentials) (token : String)
  deriving DecidableEq

def resourceMetadataURL (baseURL : String) : String :=
  baseURL ++ "/.well-known/oauth-protected-resource"

def challengeHeaderMissing (baseURL : String) : String :=
  "Bearer resource_metadata=\"" ++ resourceMetadataURL baseURL ++ "\""

def challengeHeaderInvalid (baseURL : String) : String :=
  "Bearer error=\"invalid_token\", resource_metadata=\"" ++
    resourceMetadataURL baseURL ++ "\""

/-- Model of Server.authMiddleware: reject a missing or non-Bearer
Authorization header with a 401 challenge, validate the extracted token,
and otherwise forward to the inner handler. -/
def authMiddleware (baseURL : String) (creds : OAuthCredentials)
    (authHeader : String) : MWOut :=
  if authHeader = "" ∨ goStartsWith authHeader "Bearer " = false then
    .unauthorized (challengeHeaderMissing baseURL)
  else
    let accessToken := goTrimPre authHeader "Bearer "
    match validateAccessToken creds accessToken with
    | none => .unauthorized (challengeHeaderInvalid baseURL)
    | some (cfg, tok) => .passThrough cfg tok

/-! ### Activity query loop (QueryDriveActivity, internal/drive/activity.go)
and the drive_activity_history handler (internal/mcp/tools.go) -/

/-- Outcome of one upstream Activity.Query call. -/
inductive FetchResult where
  | page (items : Nat) (next : Bool)
  | failure (msg : String)

/-- Observable side effects of the loop: upstream calls and sleeps
(durations in seconds). -/
inductive QEvent where
  | call
  | sleepFor (secs : Nat)
  deriving DecidableEq

inductive QOutcome where
  | done (count : Nat)
  | failed (msg : String)
  | exhausted
  deriving DecidableEq

structure QRun where
  events : List QEvent
  pages : Nat
  outcome : QOutcome
  deriving DecidableEq

/-- Rate-limit test of QueryDriveActivity: the error message contains
429 or rateLimitExceeded. -/
def isRateLimitError (msg : String) : Bool :=
  goContains msg "429" || goContains msg "rateLimitExceeded"

/-- Model of the QueryDriveActivity loop (internal/drive/activity.go,
lines 223-343).  The upstream is a stream of per-call results; `retry`
is the retry counter of the current page, `acc` the number of
accumulated activities, `pc` the number of successfully fetched pages.
`maxR` is the maxResults argument.  `exhausted` marks running off the
end of the modelled stream (the Go loop would keep calling upstream). -/
def queryLoop : List FetchResult → Nat → Nat → Nat → Int → QRun
  | [], _, _, pc, _ => ⟨[], pc, .exhausted⟩
  | .failure msg :: rest, retry, acc, pc, maxR =>
      if isRateLimitError msg = true ∧ retry < 3 then
        let r := queryLoop rest (retry + 1) acc pc maxR
        ⟨.call :: .sleepFor (2 * 2 ^ retry) :: r.events, r.pages, r.outcome⟩
      else ⟨[.call], pc, .failed msg⟩
  | .page items next :: rest, _, acc, pc, maxR =>
      let pc1 := pc + 1
      let sleeps := if pc1 % 90 = 0 then [QEvent.sleepFor 60] else []
      if 0 < maxR ∧ 1 ≤ items ∧ maxR ≤ (acc : Int) + items then
        let stopCount := acc + (if maxR - acc ≤ 1 then 1 else (maxR - (acc : Int)).toNat)
        ⟨.call :: sleeps, pc1, .done stopCount⟩
      else
        let acc1 := acc + items
        if next = false then ⟨.call :: sleeps, pc1, .done acc1⟩
        else if 0 < maxR ∧ maxR ≤ (acc1 : Int) then ⟨.call :: sleeps, pc1, .done acc1⟩
        else
          let r := queryLoop rest 0 acc1 pc1 maxR
          ⟨.call :: (sleeps ++ r.events), r.pages, r.outcome⟩

/-- MCP tool argument values as decoded from JSON (numbers are exact
rationals standing for Go float64 values in range). -/
inductive MCPVal where
  | num (q : ℚ)
  | strVal (s : String)
  | boolVal (b : Bool)

/-- Model of the maxResults computation in registerActivityHistoryTool
(internal/mcp/tools.go, lines 450-457): default 100, a positive float
argument is truncated toward zero to int64 (the Go float-to-int
conversion), then values above 200 are capped. -/
def historyMaxResults (arg : Option MCPVal) : Int :=
  let mr : Int :=
    match arg with
    | some (.num q) => if 0 < q then Int.tdiv q.num q.den else 100
    | _ => 100
  if 200 < mr then 200 else mr

/-- Number of 60-second throttle sleeps in an event trace. -/
def count60 : List QEvent → Nat
  | [] => 0
  | .call :: rest => count60 rest
  | .sleepFor d :: rest => (if d = 60 then 1 else 0) + count60 rest

/-- The calls and waits produced by m consecutive retried rate-limit
failures: before retry i+1 the loop waits 2 * 2 ^ i seconds. -/
def retrySleepEvents : Nat → List QEvent
  | 0 => []
  | n + 1 => retrySleepEvents n ++ [QEvent.call, QEvent.sleepFor (2 * 2 ^ n)]

/-- The PKCE verifier of RFC 7636 appendix B, used by the repository
tests. -/
def rfc7636Verifier : String := "dBjftJeZ4CVP-mB92K27uhbUJU1p1r_wW1gFWFOEjXk"

/-- The S256 challenge matching rfc7636Verifier. -/
def rfc7636Challenge : String := "E9Melhoa2OwvFrEMTJguCHaoeK1t8URWbuGJSstw-cM"

/-! ### Path reconstruction (Service.GetFilePath / GetFileInfo,
internal/drive/service.go) -/

structure PathComponent where
  id : String
  name : String
  mimeType : String
  deriving DecidableEq

/-- The per-node metadata fetched during the path walk. -/
structure GFile where
  id : String
  name : String
  mimeType : String
  sharedWithMeTime : String
  parents : List String
  deriving DecidableEq

/-- The pseudo-root synthesised when a node has no parents. -/
def pseudoRoot (f : GFile) : PathComponent :=
  if f.sharedWithMeTime ≠ "" then ⟨"shared", "Shared with me", "special"⟩
  else ⟨"root", "My Drive", "special"⟩

/-- Model of the GetFilePath loop (internal/drive/service.go, lines
482-526): walk parents[0] upward, prepending each node; a failed fetch
stops the walk and keeps what was gathered; a parentless node gets the
pseudo-root prepended.  Fuel only bounds the unbounded Go loop (which
would not terminate on a parent cycle) and is irrelevant to the claims,
which always step with positive fuel. -/
def getFilePathLoop (fetch : String → Option GFile) :
    Nat → String → List PathComponent → List PathComponent
  | 0, _, acc => acc
  | fuel + 1, currentId, acc =>
      if currentId = "" then acc
      else
        match fetch currentId with
        | none => acc
        | some f =>
            let acc1 : List PathComponent := ⟨f.id, f.name, f.mimeType⟩ :: acc
            match f.parents with
            | p :: _ => getFilePathLoop fetch fuel p acc1
            | [] => pseudoRoot f :: acc1

/-- Model of Service.GetFilePath; never returns an error. -/
def getFilePath (fetch : String → Option GFile) (fuel : Nat) (fileId : String) :
    List PathComponent :=
  getFilePathLoop fetch fuel fileId []

/-- The file metadata fetched by GetFileInfo. -/
structure MetaRec where
  id : String
  name : String
  mimeType : String
  createdTime : String
  modifiedTime : String
  webViewLink : String
  size : Int
  deriving DecidableEq

structure FileInfoRec where
  meta : MetaRec
  path : List PathComponent
  deriving DecidableEq

/-- Model of Service.GetFileInfo (internal/drive/service.go, lines
542-563): fails only when the metadata fetch fails; the path-walk
result is attached and its failures are ignored. -/
def getFileInfo (metaFetch : String → Option MetaRec)
    (fetch : String → Option GFile) (fuel : Nat) (fileId : String) :
    Option FileInfoRec :=
  match metaFetch fileId with
  | none => none
  | some m => some ⟨m, getFilePath fetch fuel fileId⟩

/-! ### drive_folder_list (Service.ListFolder and
registerFolderListTool, internal/mcp/tools.go lines 138-173) -/

/-- A file as returned by the upstream Files.List call. -/
structure DFile where
  id : String
  name : String
  mimeType : String
  modifiedTime : String
  size : Int
  deriving DecidableEq

/-- The entry shape shared by drive_search and drive_folder_list. -/
structure SearchEntry where
  id : String
  name : String
  mimeType : String
  modifiedTime : String
  size : Int
  deriving DecidableEq

def fileEntry (f : DFile) : SearchEntry :=
  ⟨f.id, f.name, f.mimeType, f.modifiedTime, f.size⟩

/-- Model of the drive_folder_list handler body: ListFolder issues a
single Files.List query with no OrderBy clause and the handler maps the
upstream result into entries in the order received. -/
def folderListTool (upstream : List DFile) : List SearchEntry :=
  upstream.map fileEntry

def isFolderEntry (e : SearchEntry) : Bool :=
  e.mimeType == "application/vnd.google-apps.folder"

/-- Byte-wise lexicographic order on character lists, as Go compares
strings. -/
def charListLe : List Char → List Char → Bool
  | [], _ => true
  | _ :: _, [] => false
  | a :: as, b :: bs =>
      if a.toNat < b.toNat then true
      else if a.toNat = b.toNat then charListLe as bs
      else false

/-- Modelled from the spec: entry a may precede entry b when a is a
folder and b is not, or both are in the same group and a is
alphabetically at most b. -/
def entryOrderOk (a b : SearchEntry) : Bool :=
  (isFolderEntry a && !isFolderEntry b) ||
    ((isFolderEntry a == isFolderEntry b) && charListLe a.name.data b.name.data)

/-- Modelled from the spec: the ordering drive_folder_list is documented
to return, folders before non-folders and alphabetical within each
group, checked on adjacent entries. -/
def foldersFirstOrdered : List SearchEntry → Bool
  | [] => true
  | [_] => true
  | a :: b :: rest => entryOrderOk a b && foldersFirstOrdered (b :: rest)

/-! ### drive_delete (registerDeleteTool, internal/mcp/tools.go
lines 525-572) -/

structure TFile where
  name : String
  trashed : Bool
  deriving DecidableEq

inductive DelOut where
  | errNotFound
  | ok (fileId fileName message : String)
  deriving DecidableEq

structure DelResult where
  state : List (String × TFile)
  out : DelOut
  updateCalled : Bool
  deriving DecidableEq

/-- Setting trashed=true on one file, as the Files.Update call does. -/
def setTrashed (st : List (String × TFile)) (fileId : String) :
    List (String × TFile) :=
  st.map (fun p => if p.1 = fileId then (p.1, ⟨p.2.name, true⟩) else p)

/-- Model of the drive_delete handler: fetch the file, short-circuit
with a message when it is already trashed, otherwise issue one update
setting trashed=true.  `updateCalled` records whether the upstream
Files.Update call was made. -/
def deleteTool (st : List (String × TFile)) (fileId : String) : DelResult :=
  match alookup st fileId with
  | none => ⟨st, .errNotFound, false⟩
  | some f =>
      if f.trashed then ⟨st, .ok fileId f.name "File is already in trash", false⟩
      else ⟨setTrashed st fileId, .ok fileId f.name "File moved to trash", true⟩

/-! ### Helper lemmas -/

theorem alookup_aerase {α : Type} (m : List (String × α)) (k : String) :
    alookup (aerase m k) k = none := by
  induction m with
  | nil => rfl
  | cons p rest ih =>
      by_cases h : p.1 = k
      · simpa [aerase, h] using ih
      · simpa [aerase, alookup, h] using ih

theorem setTrashed_cons (k : String) (f : TFile) (rest : List (String × TFile))
    (id : String) :
    setTrashed ((k, f) :: rest) id =
      (if k = id then (k, (⟨f.name, true⟩ : TFile)) else (k, f)) ::
        setTrashed rest id := by
  by_cases h : k = id <;> simp [setTrashed, h]

theorem alookup_setTrashed (st : List (String × TFile)) (id : String) :
    alookup (setTrashed st id) id =
      (alookup st id).map (fun f => ⟨f.name, true⟩) := by
  induction st with
  | nil => rfl
  | cons p rest ih =>
      obtain ⟨k, f⟩ := p
      by_cases h : k = id
      · subst h
        rw [setTrashed_cons, if_pos rfl]
        simp [alookup]
      · rw [setTrashed_cons, if_neg h]
        simp [alookup, h, ih]

theorem grant_store_of_found (codes : List (String × AuthCode)) (now : Nat)
    (code verifier : String) (entry : AuthCode) (hc : code ≠ "")
    (hf : alookup codes code = some entry) :
    (handleAuthorizationCodeGrant codes now code verifier).store =
      aerase codes code := by
  simp only [handleAuthorizationCodeGrant, if_neg hc, hf, Option.isSome_some,
    if_true]
  split <;> first
    | rfl
    | (split <;> first
        | rfl
        | (split <;> first | rfl | (split <;> rfl)))

theorem grant_of_absent (codes : List (String × AuthCode)) (now : Nat)
    (code verifier : String) (hc : code ≠ "")
    (hf : alookup codes code = none) :
    handleAuthorizationCodeGrant codes now code verifier =
      ⟨codes, .invalidGrant "Invalid or expired authorization code"⟩ := by
  simp [handleAuthorizationCodeGrant, if_neg hc, hf]

theorem callback_store_of_found (states : List (String × AuthState)) (now : Nat)
    (tok : String) (entry : AuthState) (ht : tok ≠ "")
    (hf : alookup states tok = some entry) :
    (handleCallbackState states now tok).store = aerase states tok := by
  simp only [handleCallbackState, if_neg ht, hf, Option.isSome_some, if_true]
  split <;> rfl

/-! ### Claim theorems -/

/-- Claim C1: the state and code stores consume entries in one critical
section, so of any two invocations of the callback quoting the same
state token, at most one observes the entry present and the later one
gets the invalid-or-expired error; likewise, of any two
authorization_code exchanges quoting the same code, at most one
succeeds and the later one gets invalid_grant.  Each handler body is
atomic under the store lock, so any interleaving of two invocations is
one of the two sequential orders quantified here. -/
theorem claim_C1 :
    (∀ (states : List (String × AuthState)) (tok : String) (n1 n2 : Nat),
        (handleCallbackState states n1 tok).observed = true →
        (handleCallbackState (handleCallbackState states n1 tok).store n2
            tok).observed = false ∧
        (handleCallbackState (handleCallbackState states n1 tok).store n2
            tok).out = CbOut.invalidExpired) ∧
    (∀ (codes : List (String × AuthCode)) (code v1 v2 : String) (n1 n2 : Nat),
        isGrantSuccess (handleAuthorizationCodeGrant codes n1 code v1).out = true →
        isGrantSuccess (handleAuthorizationCodeGrant
            (handleAuthorizationCodeGrant codes n1 code v1).store n2 code
            v2).out = false ∧
        (handleAuthorizationCodeGrant
            (handleAuthorizationCodeGrant codes n1 code v1).store n2 code
            v2).out = GrantOut.invalidGrant "Invalid or expired authorization code") := by
  constructor
  · intro states tok n1 n2 hobs
    by_cases ht : tok = ""
    · simp [handleCallbackState, ht] at hobs
    · cases hl : alookup states tok with
      | none => simp [handleCallbackState, if_neg ht, hl] at hobs
      | some st =>
          rw [callback_store_of_found states n1 tok st ht hl]
          have h2 : alookup (aerase states tok) tok = none := alookup_aerase _ _
          constructor <;> simp [handleCallbackState, if_neg ht, h2]
  · intro codes code v1 v2 n1 n2 hsucc
    by_cases hc : code = ""
    · simp [handleAuthorizationCodeGrant, hc, isGrantSuccess] at hsucc
    · cases hl : alookup codes code with
      | none =>
          rw [grant_of_absent codes n1 code v1 hc hl] at hsucc
          simp [isGrantSuccess] at hsucc
      | some entry =>
          rw [grant_store_of_found codes n1 code v1 entry hc hl]
          rw [grant_of_absent _ n2 code v2 hc (alookup_aerase _ _)]
          exact ⟨rfl, rfl⟩

/-- Witness for claim C1 at a concrete store: the first callback and the
first exchange observe the entry, the repeat invocations fail. -/
theorem claim_C1_witness :
    (handleCallbackState [("s", (⟨"c", "r", "", "", "", 0⟩ : AuthState))] 0
        "s").observed = true ∧
    ((handleCallbackState
        (handleCallbackState [("s", (⟨"c", "r", "", "", "", 0⟩ : AuthState))] 0
          "s").store 0 "s").observed = false ∧
      (handleCallbackState
        (handleCallbackState [("s", (⟨"c", "r", "", "", "", 0⟩ : AuthState))] 0
          "s").store 0 "s").out = CbOut.invalidExpired) ∧
    isGrantSuccess (handleAuthorizationCodeGrant
        [("c", (⟨"cl", "r", "", "", "at", "rt", 0⟩ : AuthCode))] 0 "c" "").out = true ∧
    (isGrantSuccess (handleAuthorizationCodeGrant
        (handleAuthorizationCodeGrant
          [("c", (⟨"cl", "r", "", "", "at", "rt", 0⟩ : AuthCode))] 0 "c" "").store
        0 "c" "x").out = false ∧
      (handleAuthorizationCodeGrant
        (handleAuthorizationCodeGrant
          [("c", (⟨"cl", "r", "", "", "at", "rt", 0⟩ : AuthCode))] 0 "c" "").store
        0 "c" "x").out = GrantOut.invalidGrant "Invalid or expired authorization code") :=
  ⟨by decide, claim_C1.1 _ "s" 0 0 (by decide), by decide,
    claim_C1.2 _ "c" "" "x" 0 0 (by decide)⟩

/-- Claim C9: drive_delete short-circuits on an already-trashed file
with the documented message and no upstream update, sets trashed=true
exactly once otherwise, and a repeat call is a no-op producing the
already-in-trash message, so the final state of two calls equals that
of one. -/
theorem claim_C9 :
    (∀ (st : List (String × TFile)) (id : String) (f : TFile),
        alookup st id = some f → f.trashed = true →
        deleteTool st id = ⟨st, .ok id f.name "File is already in trash", false⟩) ∧
    (∀ (st : List (String × TFile)) (id : String) (f : TFile),
        alookup st id = some f → f.trashed = false →
        (deleteTool st id).updateCalled = true ∧
        alookup (deleteTool st id).state id = some ⟨f.name, true⟩) ∧
    (∀ (st : List (String × TFile)) (id : String),
        (deleteTool (deleteTool st id).state id).state = (deleteTool st id).state ∧
        (deleteTool (deleteTool st id).state id).updateCalled = false ∧
        (∀ f : TFile, alookup st id = some f → f.trashed = false →
            (deleteTool (deleteTool st id).state id).out =
              .ok id f.name "File is already in trash")) := by
  refine ⟨?_, ?_, ?_⟩
  · intro st id f h1 h2
    simp [deleteTool, h1, h2]
  · intro st id f h1 h2
    simp [deleteTool, h1, h2, alookup_setTrashed]
  · intro st id
    cases hl : alookup st id with
    | none => simp [deleteTool, hl]
    | some f =>
        by_cases hf : f.trashed
        · simp [deleteTool, hl, hf]
        · simp [deleteTool, hl, hf, alookup_setTrashed]

/-- Witness for claim C9 at a concrete one-file store, in both the
already-trashed and the untrashed case. -/
theorem claim_C9_witness :
    deleteTool [("f", (⟨"doc", true⟩ : TFile))] "f" =
      ⟨[("f", ⟨"doc", true⟩)], .ok "f" "doc" "File is already in trash", false⟩ ∧
    ((deleteTool [("f", (⟨"doc", false⟩ : TFile))] "f").updateCalled = true ∧
      alookup (deleteTool [("f", (⟨"doc", false⟩ : TFile))] "f").state "f" =
        some ⟨"doc", true⟩) ∧
    (deleteTool (deleteTool [("f", (⟨"doc", false⟩ : TFile))] "f").state "f").out =
      .ok "f" "doc" "File is already in trash" :=
  ⟨claim_C9.1 _ "f" ⟨"doc", true⟩ (by decide) rfl,
    claim_C9.2.1 _ "f" ⟨"doc", false⟩ (by decide) rfl,
    (claim_C9.2.2 [("f", ⟨"doc", false⟩)] "f").2.2 ⟨"doc", false⟩ (by decide) rfl⟩

/-- Claim C10: the authorization_code grant deletes the stored code
before the TTL and PKCE checks and never reinstates it, so a failing
exchange still consumes the code permanently and any later exchange
quoting it gets invalid_grant. -/
theorem claim_C10 :
    ∀ (codes : List (String × AuthCode)) (now : Nat) (code verifier : String)
      (entry : AuthCode), code ≠ "" → alookup codes code = some entry →
      alookup (handleAuthorizationCodeGrant codes now code verifier).store code =
        none ∧
      (∀ (now2 : Nat) (v2 : String),
          (handleAuthorizationCodeGrant
              (handleAuthorizationCodeGrant codes now code verifier).store now2
              code v2).out =
            GrantOut.invalidGrant "Invalid or expired authorization code") ∧
      (now - entry.createdAt > ttlSeconds →
          (handleAuthorizationCodeGrant codes now code verifier).out =
            GrantOut.invalidGrant "Invalid or expired authorization code") ∧
      (now - entry.createdAt ≤ ttlSeconds → entry.codeChallenge ≠ "" →
          verifier = "" →
          (handleAuthorizationCodeGrant codes now code verifier).out =
            GrantOut.invalidGrant "Missing code_verifier") ∧
      (now - entry.createdAt ≤ ttlSeconds → entry.codeChallenge ≠ "" →
          verifier ≠ "" →
          validatePKCE verifier entry.codeChallenge entry.codeMethod = false →
          (handleAuthorizationCodeGrant codes now code verifier).out =
            GrantOut.invalidGrant "Invalid code_verifier") := by
  intro codes now code verifier entry hc hf
  have hstore := grant_store_of_found codes now code verifier entry hc hf
  refine ⟨?_, ?_, ?_, ?_, ?_⟩
  · rw [hstore]
    exact alookup_aerase _ _
  · intro now2 v2
    rw [hstore, grant_of_absent _ now2 code v2 hc (alookup_aerase _ _)]
  · intro httl
    simp [handleAuthorizationCodeGrant, if_neg hc, hf, httl]
  · intro httl hch hv
    have hn : ¬(now - entry.createdAt > ttlSeconds) := not_lt.mpr httl
    simp [handleAuthorizationCodeGrant, if_neg hc, hf, hn, hch, hv]
  · intro httl hch hv hpk
    have hn : ¬(now - entry.createdAt > ttlSeconds) := not_lt.mpr httl
    simp [handleAuthorizationCodeGrant, if_neg hc, hf, hn, hch, hv, hpk]

/-- Witness for claim C10 at a concrete store holding one expired code:
the failing exchange consumes the code and the retry gets
invalid_grant. -/
theorem claim_C10_witness :
    alookup (handleAuthorizationCodeGrant
        [("c", (⟨"cl", "r", "ch", "S256", "at", "rt", 0⟩ : AuthCode))] 700 "c"
        "v").store "c" = none ∧
    (handleAuthorizationCodeGrant
        (handleAuthorizationCodeGrant
          [("c", (⟨"cl", "r", "ch", "S256", "at", "rt", 0⟩ : AuthCode))] 700 "c"
          "v").store 0 "c" "v").out =
      GrantOut.invalidGrant "Invalid or expired authorization code" ∧
    (handleAuthorizationCodeGrant
        [("c", (⟨"cl", "r", "ch", "S256", "at", "rt", 0⟩ : AuthCode))] 700 "c"
        "v").out = GrantOut.invalidGrant "Invalid or expired authorization code" := by
  have h := claim_C10 [("c", ⟨"cl", "r", "ch", "S256", "at", "rt", 0⟩)] 700 "c" "v"
    ⟨"cl", "r", "ch", "S256", "at", "rt", 0⟩ (by decide) (by decide)
  exact ⟨h.1, h.2.1 0 "v", h.2.2.1 (by decide)⟩

/-- Claim C2: validatePKCE accepts exactly when the method is S256 and
the unpadded base64url encoding of SHA256(verifier) equals the
challenge; the RFC 7636 vector used by the repository tests is
accepted, method plain is always rejected, and any verifier whose
encoded hash differs from the challenge is rejected. -/
theorem claim_C2 :
    (∀ v c m : String, validatePKCE v c m = true ↔
        (m = "S256" ∧ base64UrlEncode (sha256 (strBytes v)) = c)) ∧
    validatePKCE rfc7636Verifier rfc7636Challenge "S256" = true ∧
    (∀ v c : String, validatePKCE v c "plain" = false) ∧
    (∀ v : String, base64UrlEncode (sha256 (strBytes v)) ≠ rfc7636Challenge →
        validatePKCE v rfc7636Challenge "S256" = false) := by
  refine ⟨?_, by decide, ?_, ?_⟩
  · intro v c m
    by_cases hm : m = "S256"
    · simp [validatePKCE, hm]
    · simp [validatePKCE, hm]
  · intro v c
    simp [validatePKCE]
  · intro v hne
    simpa [validatePKCE, beq_eq_false_iff_ne] using hne

/-- Witness for claim C2: a verifier hashing to a different value than
the RFC 7636 challenge is rejected. -/
theorem claim_C2_witness :
    base64UrlEncode (sha256 (strBytes "aaa")) ≠ rfc7636Challenge ∧
    validatePKCE "aaa" rfc7636Challenge "S256" = false :=
  ⟨by decide, claim_C2.2.2.2 "aaa" (by decide)⟩

/-- Claim C3 counterexample: the web shape with a non-empty client_id
and an empty client_secret is accepted by parseCredentials with an
empty secret, while the claim demands a malformed-credentials
failure. -/
theorem claim_C3_counterexample :
    parseCredentialsJ (webShape "id" "") = Except.ok ⟨"id", ""⟩ ∧
    (parseCredentialsJ (webShape "id" "") =
        Except.error CredErr.missingFields) = False :=
  ⟨rfl, eq_false (fun h =>
    Except.noConfusion
      (show (Except.ok (⟨"id", ""⟩ : OAuthCredentials) :
          Except CredErr OAuthCredentials) = Except.error CredErr.missingFields
        from h))⟩

/-- Claim C3 as amended: the three shapes with both fields non-empty
round-trip; the flat shape with a missing or empty field fails with the
malformed-credentials error, as does a wrapper shape whose client_id is
empty; but a wrapper shape with non-empty client_id and empty
client_secret is accepted with an empty secret. -/
theorem claim_C3 :
    (∀ id sec : String, id ≠ "" →
        parseCredentialsJ (webShape id sec) = .ok ⟨id, sec⟩) ∧
    (∀ id sec : String, id ≠ "" →
        parseCredentialsJ (installedShape id sec) = .ok ⟨id, sec⟩) ∧
    (∀ id sec : String, id ≠ "" → sec ≠ "" →
        parseCredentialsJ (flatShape id sec) = .ok ⟨id, sec⟩) ∧
    (∀ id sec : String, id = "" ∨ sec = "" →
        parseCredentialsJ (flatShape id sec) = .error .missingFields) ∧
    (∀ sec : String, parseCredentialsJ (webShape "" sec) = .error .missingFields) ∧
    (∀ sec : String,
        parseCredentialsJ (installedShape "" sec) = .error .missingFields) := by
  refine ⟨?_, ?_, ?_, ?_, ?_, ?_⟩
  · intro id sec h
    simp [parseCredentialsJ, decodeWrapper, decodePair, jStrField, lookupLast,
      webShape, h]
  · intro id sec h
    simp [parseCredentialsJ, decodeWrapper, decodePair, jStrField, lookupLast,
      installedShape, h]
  · intro id sec h1 h2
    simp [parseCredentialsJ, decodeWrapper, decodePair, jStrField, lookupLast,
      flatShape, flatDecode, h1, h2]
  · intro id sec h
    rcases h with h | h <;>
      simp [parseCredentialsJ, decodeWrapper, decodePair, jStrField, lookupLast,
        flatShape, flatDecode, h]
  · intro sec
    simp [parseCredentialsJ, decodeWrapper, decodePair, jStrField, lookupLast,
      webShape, flatDecode]
  · intro sec
    simp [parseCredentialsJ, decodeWrapper, decodePair, jStrField, lookupLast,
      installedShape, flatDecode]

/-- Witness for claim C3 at concrete payloads for each shape. -/
theorem claim_C3_witness :
    parseCredentialsJ (webShape "wid" "wsec") = .ok ⟨"wid", "wsec"⟩ ∧
    parseCredentialsJ (installedShape "iid" "isec") = .ok ⟨"iid", "isec"⟩ ∧
    parseCredentialsJ (flatShape "fid" "fsec") = .ok ⟨"fid", "fsec"⟩ ∧
    parseCredentialsJ (flatShape "fid" "") = .error .missingFields ∧
    parseCredentialsJ (webShape "" "wsec") = .error .missingFields :=
  ⟨claim_C3.1 "wid" "wsec" (by decide),
    claim_C3.2.1 "iid" "isec" (by decide),
    claim_C3.2.2.1 "fid" "fsec" (by decide) (by decide),
    claim_C3.2.2.2.1 "fid" "" (Or.inr rfl),
    claim_C3.2.2.2.2.1 "wsec"⟩

/-- A header that starts with the Bearer scheme is non-empty. -/
theorem goStartsWith_bearer_ne_empty (ah : String)
    (hs : goStartsWith ah "Bearer " = true) : ah ≠ "" := by
  intro he
  rw [he] at hs
  exact absurd hs (by decide)

/-- Claim C4: a missing or non-Bearer Authorization header is rejected
with a 401 challenge whose resource_metadata is the protected-resource
metadata URL under the base URL; an empty extracted bearer fails
validation and gets the same challenge with error invalid_token; any
non-empty bearer validates to the shared config paired with the
presented token and the inner handler runs. -/
theorem claim_C4 :
    ∀ (baseURL : String) (creds : OAuthCredentials) (ah : String),
      ((ah = "" ∨ goStartsWith ah "Bearer " = false) →
        authMiddleware baseURL creds ah =
          .unauthorized ("Bearer resource_metadata=\"" ++
            (baseURL ++ "/.well-known/oauth-protected-resource") ++ "\"")) ∧
      (goStartsWith ah "Bearer " = true → goTrimPre ah "Bearer " = "" →
        authMiddleware baseURL creds ah =
          .unauthorized ("Bearer error=\"invalid_token\", resource_metadata=\"" ++
            (baseURL ++ "/.well-known/oauth-protected-resource") ++ "\"")) ∧
      (goStartsWith ah "Bearer " = true → goTrimPre ah "Bearer " ≠ "" →
        authMiddleware baseURL creds ah =
          .passThrough creds (goTrimPre ah "Bearer ") ∧
        validateAccessToken creds (goTrimPre ah "Bearer ") =
          some (creds, goTrimPre ah "Bearer ")) := by
  intro baseURL creds ah
  refine ⟨?_, ?_, ?_⟩
  · intro hcase
    have hcond : ah = "" ∨ goStartsWith ah "Bearer " = false := hcase
    simp [authMiddleware, hcond, challengeHeaderMissing, resourceMetadataURL]
  · intro hs he
    have hne := goStartsWith_bearer_ne_empty ah hs
    simp [authMiddleware, hne, hs, validateAccessToken, he,
      challengeHeaderInvalid, resourceMetadataURL]
  · intro hs he
    have hne := goStartsWith_bearer_ne_empty ah hs
    simp [authMiddleware, hne, hs, validateAccessToken, he]

/-- Witness for claim C4 at a concrete base URL with the three header
cases of scenario S6. -/
theorem claim_C4_witness :
    authMiddleware "https://x" ⟨"a", "b"⟩ "Basic zz" =
      .unauthorized ("Bearer resource_metadata=\"" ++
        ("https://x" ++ "/.well-known/oauth-protected-resource") ++ "\"") ∧
    authMiddleware "https://x" ⟨"a", "b"⟩ "Bearer " =
      .unauthorized ("Bearer error=\"invalid_token\", resource_metadata=\"" ++
        ("https://x" ++ "/.well-known/oauth-protected-resource") ++ "\"") ∧
    authMiddleware "https://x" ⟨"a", "b"⟩ "Bearer tok" =
      .passThrough ⟨"a", "b"⟩ (goTrimPre "Bearer tok" "Bearer ") :=
  ⟨(claim_C4 "https://x" ⟨"a", "b"⟩ "Basic zz").1 (Or.inr (by decide)),
    (claim_C4 "https://x" ⟨"a", "b"⟩ "Bearer ").2.1 (by decide) (by decide),
    ((claim_C4 "https://x" ⟨"a", "b"⟩ "Bearer tok").2.2 (by decide) (by decide)).1⟩

/-- Claim C7: the path walk follows parents[0] upward prepending each
node, synthesises the My Drive or Shared with me pseudo-root when a
node has no parents, stops on a failed fetch returning what was
gathered with no error, and GetFileInfo succeeds exactly when its own
metadata fetch succeeds, independently of the path walk. -/
theorem claim_C7 :
    (∀ (fetch : String → Option GFile) (fuel : Nat) (id : String)
        (acc : List PathComponent), fetch id = none →
        getFilePathLoop fetch (fuel + 1) id acc = acc) ∧
    (∀ (fetch : String → Option GFile) (fuel : Nat) (id : String)
        (acc : List PathComponent) (f : GFile) (p : String) (ps : List String),
        id ≠ "" → fetch id = some f → f.parents = p :: ps →
        getFilePathLoop fetch (fuel + 1) id acc =
          getFilePathLoop fetch fuel p (⟨f.id, f.name, f.mimeType⟩ :: acc)) ∧
    (∀ (fetch : String → Option GFile) (fuel : Nat) (id : String)
        (acc : List PathComponent) (f : GFile),
        id ≠ "" → fetch id = some f → f.parents = [] →
        getFilePathLoop fetch (fuel + 1) id acc =
          pseudoRoot f :: ⟨f.id, f.name, f.mimeType⟩ :: acc) ∧
    (∀ f : GFile,
        (f.sharedWithMeTime = "" →
          pseudoRoot f = ⟨"root", "My Drive", "special"⟩) ∧
        (f.sharedWithMeTime ≠ "" →
          pseudoRoot f = ⟨"shared", "Shared with me", "special"⟩)) ∧
    (∀ (metaFetch : String → Option MetaRec) (fetch : String → Option GFile)
        (fuel : Nat) (id : String),
        (getFileInfo metaFetch fetch fuel id).isSome = (metaFetch id).isSome) := by
  refine ⟨?_, ?_, ?_, ?_, ?_⟩
  · intro fetch fuel id acc h
    by_cases hid : id = "" <;> simp [getFilePathLoop, hid, h]
  · intro fetch fuel id acc f p ps hid hf hp
    simp [getFilePathLoop, hid, hf, hp]
  · intro fetch fuel id acc f hid hf hp
    simp [getFilePathLoop, hid, hf, hp]
  · intro f
    constructor <;> intro h <;> simp [pseudoRoot, h]
  · intro metaFetch fetch fuel id
    cases hm : metaFetch id <;> simp [getFileInfo, hm]

/-- Witness for claim C7 on a two-node drive: a file under one folder in
My Drive, plus a failing fetch. -/
theorem claim_C7_witness :
    getFilePathLoop (fun _ => none) 1 "f" [] = [] ∧
    getFilePathLoop
        (fun i => if i = "f" then some ⟨"f", "file.txt", "text/plain", "", ["p"]⟩
          else if i = "p" then
            some ⟨"p", "Docs", "application/vnd.google-apps.folder", "", []⟩
          else none) 2 "f" [] =
      getFilePathLoop
        (fun i => if i = "f" then some ⟨"f", "file.txt", "text/plain", "", ["p"]⟩
          else if i = "p" then
            some ⟨"p", "Docs", "application/vnd.google-apps.folder", "", []⟩
          else none) 1 "p" [⟨"f", "file.txt", "text/plain"⟩] ∧
    getFilePathLoop
        (fun i => if i = "p" then
            some ⟨"p", "Docs", "application/vnd.google-apps.folder", "", []⟩
          else none) 1 "p" [⟨"f", "file.txt", "text/plain"⟩] =
      [⟨"root", "My Drive", "special"⟩,
        ⟨"p", "Docs", "application/vnd.google-apps.folder"⟩,
        ⟨"f", "file.txt", "text/plain"⟩] ∧
    (getFileInfo (fun _ => some ⟨"f", "file.txt", "text/plain", "", "", "", 3⟩)
        (fun _ => none) 1 "f").isSome = ((some ⟨"f", "file.txt", "text/plain",
          "", "", "", 3⟩ : Option MetaRec)).isSome := by
  refine ⟨claim_C7.1 (fun _ => none) 0 "f" [] rfl, ?_, ?_, ?_⟩
  · exact claim_C7.2.1 _ 1 "f" [] ⟨"f", "file.txt", "text/plain", "", ["p"]⟩ "p" []
      (by decide) (by decide) rfl
  · have h := claim_C7.2.2.1
      (fun i => if i = "p" then
          some (⟨"p", "Docs", "application/vnd.google-apps.folder", "", []⟩ : GFile)
        else none) 0 "p" [⟨"f", "file.txt", "text/plain"⟩]
      ⟨"p", "Docs", "application/vnd.google-apps.folder", "", []⟩
      (by decide) (by decide) rfl
    simpa [pseudoRoot] using h
  · exact claim_C7.2.2.2.2 (fun _ => some ⟨"f", "file.txt", "text/plain",
      "", "", "", 3⟩) (fun _ => none) 1 "f"

/-- Claim C8 (documented ordering of drive_folder_list): the handler
returns the upstream listing in the order received, so with an upstream
page carrying a file before a folder the output violates the documented
folders-first alphabetical order. -/
theorem claim_C8 :
    folderListTool
        [⟨"f1", "beta.txt", "text/plain", "2024-01-01T00:00:00Z", 10⟩,
          ⟨"f2", "Alpha", "application/vnd.google-apps.folder",
            "2024-01-02T00:00:00Z", 0⟩] =
      [⟨"f1", "beta.txt", "text/plain", "2024-01-01T00:00:00Z", 10⟩,
        ⟨"f2", "Alpha", "application/vnd.google-apps.folder",
          "2024-01-02T00:00:00Z", 0⟩] ∧
    foldersFirstOrdered (folderListTool
        [⟨"f1", "beta.txt", "text/plain", "2024-01-01T00:00:00Z", 10⟩,
          ⟨"f2", "Alpha", "application/vnd.google-apps.folder",
            "2024-01-02T00:00:00Z", 0⟩]) = false :=
  ⟨rfl, by decide⟩

/-- The number of successfully fetched pages never decreases, and the
60-second throttle sleeps in the trace are exactly one per 90 fetched
pages. -/
theorem queryLoop_pages_count (oracle : List FetchResult) :
    ∀ (retry acc pc : Nat) (maxR : Int),
      pc ≤ (queryLoop oracle retry acc pc maxR).pages ∧
      count60 (queryLoop oracle retry acc pc maxR).events =
        (queryLoop oracle retry acc pc maxR).pages / 90 - pc / 90 := by
  induction oracle with
  | nil => intro retry acc pc maxR; simp [queryLoop, count60]
  | cons head rest ih =>
      intro retry acc pc maxR
      cases head with
      | failure msg =>
          simp only [queryLoop]
          split
          · rename_i hcond
            have hd : (2 * 2 ^ retry : Nat) ≠ 60 := by
              have hretry := hcond.2
              interval_cases retry <;> decide
            have hih := ih (retry + 1) acc pc maxR
            exact ⟨hih.1, by simp [count60, hd, hih.2]⟩
          · simp [count60]
      | page items next =>
          simp only [queryLoop]
          by_cases h90 : (pc + 1) % 90 = 0
          · simp only [h90, if_true, if_pos]
            split
            · simp [count60]
              omega
            · split
              · simp [count60]
                omega
              · split
                · simp [count60]
                  omega
                · have hih := ih 0 (acc + items) (pc + 1) maxR
                  simp only [count60, List.cons_append, List.singleton_append]
                  refine ⟨by omega, ?_⟩
                  simp [count60, hih.2]
                  omega
          · simp only [h90, if_false]
            split
            · simp [count60]
              omega
            · split
              · simp [count60]
                omega
              · split
                · simp [count60]
                  omega
                · have hih := ih 0 (acc + items) (pc + 1) maxR
                  simp only [List.nil_append]
                  refine ⟨by omega, ?_⟩
                  simp [count60, hih.2]
                  omega

/-- Claim C5 (failing input): a maxResults argument strictly between 0
and 1 is truncated to 0 by the handler, which disables both the
200-cap and the stop condition of the pagination loop, so an upstream
activity stream of three pages of 100 items yields 300 results; the
cap itself never produces a value above 200. -/
theorem claim_C5 :
    historyMaxResults (some (.num (mkRat 1 2))) = 0 ∧
    (∀ arg : Option MCPVal, historyMaxResults arg ≤ 200) ∧
    (queryLoop [.page 100 true, .page 100 true, .page 100 false] 0 0 0
        (historyMaxResults (some (.num (mkRat 1 2))))).outcome =
      QOutcome.done 300 := by
  refine ⟨by decide, ?_, by decide⟩
  intro arg
  dsimp only [historyMaxResults]
  split
  · omega
  · rename_i hlt
    omega

/-- Claim C6: in the activity pagination loop a failed fetch is retried
exactly when the message contains 429 or rateLimitExceeded, with at
most 3 retries preceded by waits of exactly 2, 4 and 8 seconds; a
non-matching error or a fourth consecutive rate-limit failure
terminates the query with an error; and the trace carries one
60-second sleep per 90 successfully fetched pages. -/
theorem claim_C6 :
    (∀ (msg : String) (rest : List FetchResult) (retry acc pc : Nat) (maxR : Int),
        isRateLimitError msg = false →
        queryLoop (.failure msg :: rest) retry acc pc maxR =
          ⟨[.call], pc, .failed msg⟩) ∧
    retrySleepEvents 3 =
      [.call, .sleepFor 2, .call, .sleepFor 4, .call, .sleepFor 8] ∧
    (∀ msg : String, isRateLimitError msg = true →
        ∀ (rest : List FetchResult) (acc pc : Nat) (maxR : Int) (m : Nat),
          m ≤ 3 →
          queryLoop (List.replicate m (.failure msg) ++ rest) 0 acc pc maxR =
            ⟨retrySleepEvents m ++ (queryLoop rest m acc pc maxR).events,
              (queryLoop rest m acc pc maxR).pages,
              (queryLoop rest m acc pc maxR).outcome⟩) ∧
    (∀ msg : String, isRateLimitError msg = true →
        ∀ (rest : List FetchResult) (acc pc : Nat) (maxR : Int),
          queryLoop (List.replicate 4 (.failure msg) ++ rest) 0 acc pc maxR =
            ⟨[.call, .sleepFor 2, .call, .sleepFor 4, .call, .sleepFor 8, .call],
              pc, .failed msg⟩) ∧
    (∀ (oracle : List FetchResult) (retry acc pc : Nat) (maxR : Int),
        count60 (queryLoop oracle retry acc pc maxR).events =
          (queryLoop oracle retry acc pc maxR).pages / 90 - pc / 90) := by
  refine ⟨?_, by decide, ?_, ?_, ?_⟩
  · intro msg rest retry acc pc maxR hrl
    simp [queryLoop, hrl]
  · intro msg hrl rest acc pc maxR m hm
    interval_cases m
    · simp [retrySleepEvents, queryLoop]
    · simp [List.replicate_succ, queryLoop, hrl, retrySleepEvents]
    · simp [List.replicate_succ, queryLoop, hrl, retrySleepEvents]
    · simp [List.replicate_succ, queryLoop, hrl, retrySleepEvents]
  · intro msg hrl rest acc pc maxR
    simp [List.replicate_succ, queryLoop, hrl]
  · intro oracle retry acc pc maxR
    exact (queryLoop_pages_count oracle retry acc pc maxR).2

/-- Witness for claim C6: a non-retryable error fails immediately with
no sleep, and four consecutive rate-limit errors produce exactly the
2, 4 and 8 second waits before failing. -/
theorem claim_C6_witness :
    queryLoop [.failure "quota exceeded"] 0 0 0 100 =
      ⟨[.call], 0, .failed "quota exceeded"⟩ ∧
    queryLoop (List.replicate 4 (.failure "googleapi: Error 429") ++ []) 0 0 0 100 =
      ⟨[.call, .sleepFor 2, .call, .sleepFor 4, .call, .sleepFor 8, .call], 0,
        .failed "googleapi: Error 429"⟩ :=
  ⟨claim_C6.1 "quota exceeded" [] 0 0 0 100 (by decide),
    claim_C6.2.2.2.1 "googleapi: Error 429" (by decide) [] 0 0 100⟩

end GDrive
